import Mathlib

/-!
Verification of the xb evaluator core: a shallow embedding of
`src/xb/interpreter/value.py`, `src/xb/interpreter/environment.py` and the
evaluating fragment of `src/xb/interpreter/ast.py`, with theorems settling
the frozen claims about the natural-language specification.

Modelling conventions:
* Python exceptions become `Except XbErr`; `XbErr.runtime` is the
  interpreter's own `XbRuntimeError`, while the `host*` constructors stand
  for uncaught host-level exceptions (`KeyError`, `ValueError`, `TypeError`).
* Python's `int | float` number payload becomes `NumVal`: an `int` tag over
  `Int` and a `float` tag over `Rat`.  Floats are modelled as exact
  rationals; binary-rounding effects are outside the embedding, and the one
  operation that can leave the rationals (a non-integral exponent in `pow`,
  never reached by any theorem below) reports a `modelBoundary` error.
* In-place mutation is modelled by returning the updated structure.
-/

/-- Error outcomes: `runtime` is `XbRuntimeError`; the others are host
(Python-level) exceptions that the interpreter does not catch. -/
inductive XbErr where
  | runtime (msg : String)
  | hostKeyError (name : String)
  | hostValueError (msg : String)
  | hostTypeError (msg : String)
  | hostError (msg : String)
  | modelBoundary (msg : String)
deriving DecidableEq, Repr

/-- The payload of a `Number`: Python's `int | float`, with floats as exact
rationals. -/
inductive NumVal where
  | int (i : Int)
  | float (q : ℚ)
deriving DecidableEq, Repr

namespace NumVal

/-- The rational value of a number payload. -/
def toQ : NumVal → ℚ
  | int i => (i : ℚ)
  | float q => q

end NumVal

/-- `Number.__init__`: an `int` is kept; a `float` is demoted to `int` when
its value is whole (`int(val) == val`), else kept as `float`. -/
def mkNumber : NumVal → NumVal
  | .int i => .int i
  | .float q => if q.den = 1 then .int q.num else .float q

/-- Python `==` on number payloads (`int` and `float` compare by value). -/
def numEq (a b : NumVal) : Bool := a.toQ == b.toQ

/-- Python `<` on number payloads. -/
def numLt (a b : NumVal) : Bool := decide (a.toQ < b.toQ)

/-- Python `>` on number payloads. -/
def numGt (a b : NumVal) : Bool := decide (a.toQ > b.toQ)

/-- Python `+`: `int + int` stays `int`, otherwise a float; the result is
then normalized by `Number.__init__` (`mkNumber`). -/
def numAdd (a b : NumVal) : NumVal :=
  match a, b with
  | .int i, .int j => mkNumber (.int (i + j))
  | _, _ => mkNumber (.float (a.toQ + b.toQ))

/-- Python `-`, normalized by `Number.__init__`. -/
def numSub (a b : NumVal) : NumVal :=
  match a, b with
  | .int i, .int j => mkNumber (.int (i - j))
  | _, _ => mkNumber (.float (a.toQ - b.toQ))

/-- Python `*`, normalized by `Number.__init__`. -/
def numMul (a b : NumVal) : NumVal :=
  match a, b with
  | .int i, .int j => mkNumber (.int (i * j))
  | _, _ => mkNumber (.float (a.toQ * b.toQ))

/-- Python `/` (true division, always float), normalized by
`Number.__init__` so whole quotients come back as `int`. -/
def numDiv (a b : NumVal) : NumVal :=
  mkNumber (.float (a.toQ / b.toQ))

/-- Python `//` (floor division: `int // int` is `int`, floats floor to a
whole float), normalized by `Number.__init__`. -/
def numIntDiv (a b : NumVal) : NumVal :=
  match a, b with
  | .int i, .int j => mkNumber (.int (Int.fdiv i j))
  | _, _ => mkNumber (.float ((Int.floor (a.toQ / b.toQ) : Int) : ℚ))

/-- Python `%` (sign follows the divisor), normalized by `Number.__init__`. -/
def numMod (a b : NumVal) : NumVal :=
  match a, b with
  | .int i, .int j => mkNumber (.int (Int.emod i j))
  | _, _ => mkNumber (.float (a.toQ - b.toQ * ((Int.floor (a.toQ / b.toQ) : Int) : ℚ)))

/-- Python `**`, normalized by `Number.__init__`.  A non-integral exponent
would produce an irrational float and is reported as a model boundary; a
zero base with a negative exponent is Python's `ZeroDivisionError`. -/
def numPow (a b : NumVal) : Except XbErr NumVal :=
  match a, b with
  | .int i, .int j =>
    if 0 ≤ j then .ok (.int (i ^ j.toNat))
    else if i = 0 then .error (.hostError "ZeroDivisionError: 0 to a negative power")
    else .ok (mkNumber (.float ((i : ℚ) ^ j)))
  | _, _ =>
    let e := b.toQ
    if e.den = 1 then
      if a.toQ = 0 ∧ e.num < 0 then
        .error (.hostError "ZeroDivisionError: 0 to a negative power")
      else .ok (mkNumber (.float (a.toQ ^ e.num)))
    else .error (.modelBoundary "non-integral exponent: irrational result")

/-- The variant (Python class) of a runtime value. -/
inductive Variant where
  | vempty
  | vboolean
  | vnumber
  | vstring
  | varray
  | vobject
deriving DecidableEq, Repr

/-- The closed sum of runtime values of `value.py`: Empty, Boolean, Number,
String, Array, Object.  An Object entry is `(key, value, is_const)`,
mirroring `Object.Entry`. -/
inductive Value where
  | empty
  | boolean (b : Bool)
  | number (n : NumVal)
  | str (s : String)
  | array (l : List Value)
  | object (d : List (String × Value × Bool))

namespace Value

/-- `type(v)` as a tag, for `Op._types_match`. -/
def variant : Value → Variant
  | empty => .vempty
  | boolean _ => .vboolean
  | number _ => .vnumber
  | str _ => .vstring
  | array _ => .varray
  | object _ => .vobject

/-- The `type_name` attribute of each variant. -/
def typeName : Value → String
  | empty => "()"
  | boolean _ => "boolean"
  | number _ => "number"
  | str _ => "string"
  | array _ => "array"
  | object _ => "object"

end Value

/-- `Boolean.cast` as a Bool: `Empty()` and `Boolean(False)` cast to false,
everything else to true (the match in `Boolean.cast`). -/
def boolCastB : Value → Bool
  | .empty => false
  | .boolean false => false
  | _ => true

/-- `Boolean.cast`, returning the Boolean value it constructs. -/
def booleanCast (v : Value) : Value := .boolean (boolCastB v)

/-- `Value.__bool__`: truthiness of a value is its Boolean cast. -/
def truthyV (v : Value) : Bool := boolCastB v

/-- Assoc-list lookup for Object entries and environment frames
(`dict` access by key; keys are unique in any dict we build). -/
def entryLookup {α : Type} : List (String × α × Bool) → String → Option (α × Bool)
  | [], _ => none
  | (k, v, c) :: rest, key => if k = key then some (v, c) else entryLookup rest key

/-- `dict` assignment `d[k] = e`: replaces the value at an existing key in
place (Python dicts keep the original position), else appends. -/
def entryInsert {α : Type} : List (String × α × Bool) → String → (α × Bool) → List (String × α × Bool)
  | [], key, e => [(key, e.1, e.2)]
  | (k, v, c) :: rest, key, e =>
    if k = key then (k, e.1, e.2) :: rest else (k, v, c) :: entryInsert rest key e

mutual

/-- The `eq` methods of `value.py`, dispatched on the receiver's variant.
Matching variants: `Empty.eq` ignores its argument and returns true;
`Boolean`/`String`/`Number` compare payloads; `Array.eq` compares lengths
and elementwise `Op.eq`; `Object.eq` compares entry counts and per-key
constness and `Op.eq` of values.  A mismatched pair cannot be reached
through `Op.eq` (the facade checks variants first); it would be a host
`AttributeError` in Python. -/
def eqM : Value → Value → Except XbErr Value
  | .empty, _ => .ok (.boolean true)
  | .boolean a, .boolean b => .ok (.boolean (a == b))
  | .str a, .str b => .ok (.boolean (a == b))
  | .number a, .number b => .ok (.boolean (numEq a b))
  | .array a, .array b => do
    let e ← eqListM a b
    .ok (.boolean (a.length == b.length && e))
  | .object a, .object b => do
    let e ← eqEntriesM a b
    .ok (.boolean (a.length == b.length && e))
  | _, _ => .error (.hostError "AttributeError: eq across variants bypassing Op")

/-- `all(Op.eq(s, o) for s, o in zip(...))` in `Array.eq`; `Op.eq`'s variant
guard is inlined (`if variants match then delegate else Boolean(False)`) so
the mutual recursion is visibly decreasing. -/
def eqListM : List Value → List Value → Except XbErr Bool
  | [], _ => .ok true
  | _ :: _, [] => .ok true
  | s :: ss, o :: os => do
    let r ← if s.variant = o.variant then eqM s o else .ok (.boolean false)
    if truthyV r then eqListM ss os else .ok false

/-- The generator in `Object.eq`: every key of the receiver must exist in
the other dict with the same constness and an `Op.eq`-true value (again with
`Op.eq`'s variant guard inlined). -/
def eqEntriesM : List (String × Value × Bool) → List (String × Value × Bool) → Except XbErr Bool
  | [], _ => .ok true
  | (k, v, c) :: rest, os =>
    match entryLookup os k with
    | none => .ok false
    | some (v2, c2) =>
      if c == c2 then do
        let r ← if v.variant = v2.variant then eqM v v2 else .ok (.boolean false)
        if truthyV r then eqEntriesM rest os else .ok false
      else .ok false

end

/-- `lt` methods: `String` and `Number` order; every other variant raises
"type 'X' does not support ordering" through the base class. -/
def ltM : Value → Value → Except XbErr Value
  | .str a, .str b => .ok (.boolean (decide (a < b)))
  | .number a, .number b => .ok (.boolean (numLt a b))
  | .str _, _ | .number _, _ =>
    .error (.hostError "AttributeError: lt across variants bypassing Op")
  | x, _ => .error (.runtime ("type '" ++ x.typeName ++ "' does not support ordering"))

/-- `gt` methods, mirroring `ltM`. -/
def gtM : Value → Value → Except XbErr Value
  | .str a, .str b => .ok (.boolean (decide (a > b)))
  | .number a, .number b => .ok (.boolean (numGt a b))
  | .str _, _ | .number _, _ =>
    .error (.hostError "AttributeError: gt across variants bypassing Op")
  | x, _ => .error (.runtime ("type '" ++ x.typeName ++ "' does not support ordering"))

/-- `add` methods: `String` concatenates, `Number` adds; the base class
raises "does not support addition". -/
def addM : Value → Value → Except XbErr Value
  | .str a, .str b => .ok (.str (a ++ b))
  | .number a, .number b => .ok (.number (numAdd a b))
  | .str _, _ | .number _, _ =>
    .error (.hostError "AttributeError: add across variants bypassing Op")
  | x, _ => .error (.runtime ("type '" ++ x.typeName ++ "' does not support addition"))

/-- `sub` methods: `Number` only. -/
def subM : Value → Value → Except XbErr Value
  | .number a, .number b => .ok (.number (numSub a b))
  | .number _, _ =>
    .error (.hostError "AttributeError: sub across variants bypassing Op")
  | x, _ => .error (.runtime ("type '" ++ x.typeName ++ "' does not support subtraction"))

/-- `mul` methods: `Number` only. -/
def mulM : Value → Value → Except XbErr Value
  | .number a, .number b => .ok (.number (numMul a b))
  | .number _, _ =>
    .error (.hostError "AttributeError: mul across variants bypassing Op")
  | x, _ => .error (.runtime ("type '" ++ x.typeName ++ "' does not support multiplication"))

/-- `div` methods: `Number.div` guards against a zero divisor first. -/
def divM : Value → Value → Except XbErr Value
  | .number a, .number b =>
    if b.toQ = 0 then .error (.runtime "division by 0")
    else .ok (.number (numDiv a b))
  | .number _, _ =>
    .error (.hostError "AttributeError: div across variants bypassing Op")
  | x, _ => .error (.runtime ("type '" ++ x.typeName ++ "' does not support division"))

/-- `int_div` methods: `Number.int_div` guards against a zero divisor. -/
def intDivM : Value → Value → Except XbErr Value
  | .number a, .number b =>
    if b.toQ = 0 then .error (.runtime "division by 0")
    else .ok (.number (numIntDiv a b))
  | .number _, _ =>
    .error (.hostError "AttributeError: int_div across variants bypassing Op")
  | x, _ => .error (.runtime ("type '" ++ x.typeName ++ "' does not support integer division"))

/-- `mod` methods: `Number.mod` guards against a zero divisor. -/
def modM : Value → Value → Except XbErr Value
  | .number a, .number b =>
    if b.toQ = 0 then .error (.runtime "division by 0")
    else .ok (.number (numMod a b))
  | .number _, _ =>
    .error (.hostError "AttributeError: mod across variants bypassing Op")
  | x, _ => .error (.runtime ("type '" ++ x.typeName ++ "' does not support modulo"))

/-- `pow` methods: `Number.pow` has no zero guard (Python itself raises on
`0 ** negative`). -/
def powM : Value → Value → Except XbErr Value
  | .number a, .number b => do
    let r ← numPow a b
    .ok (.number r)
  | .number _, _ =>
    .error (.hostError "AttributeError: pow across variants bypassing Op")
  | x, _ => .error (.runtime ("type '" ++ x.typeName ++ "' does not support exponentiation"))

namespace Op

/-- `Op._types_match`: `type(a) is type(b)`. -/
def typesMatch (a b : Value) : Bool := decide (a.variant = b.variant)

/-- `Op._type_guard`: raises `cannot <verb> types 'A' and 'B'` when the
variants differ (the `None` verb default is dead at every call site). -/
def typeGuard (a b : Value) (opName : Option String) : Except XbErr Unit :=
  if typesMatch a b then .ok ()
  else
    let msgStart := match opName with
      | some n => "cannot " ++ n
      | none => "illegal operation between"
    .error (.runtime (msgStart ++ " types '" ++ a.typeName ++ "' and '" ++ b.typeName ++ "'"))

/-- `Op.eq`: differing variants give `Boolean(False)` without error,
otherwise delegate to the `eq` method. -/
def eq (a b : Value) : Except XbErr Value :=
  if typesMatch a b then eqM a b else .ok (.boolean false)

/-- `Op.not_`: `Boolean(not Boolean.cast(a)._bool)`. -/
def not_ (a : Value) : Value := .boolean (!(boolCastB a))

/-- `Op.neq`: `Op.not_(Op.eq(a, b))`. -/
def neq (a b : Value) : Except XbErr Value :=
  match eq a b with
  | .error e => .error e
  | .ok v => .ok (not_ v)

/-- `Op.lt`: type guard with verb "compare", then delegate. -/
def lt (a b : Value) : Except XbErr Value :=
  match typeGuard a b (some "compare") with
  | .error e => .error e
  | .ok _ => ltM a b

/-- `Op.gt`: type guard with verb "compare", then delegate. -/
def gt (a b : Value) : Except XbErr Value :=
  match typeGuard a b (some "compare") with
  | .error e => .error e
  | .ok _ => gtM a b

/-- `Op.add`: type guard with verb "add", then delegate. -/
def add (a b : Value) : Except XbErr Value :=
  match typeGuard a b (some "add") with
  | .error e => .error e
  | .ok _ => addM a b

/-- `Op.sub`: type guard with verb "subtract", then delegate. -/
def sub (a b : Value) : Except XbErr Value :=
  match typeGuard a b (some "subtract") with
  | .error e => .error e
  | .ok _ => subM a b

/-- `Op.mul`: type guard with verb "multiply", then delegate. -/
def mul (a b : Value) : Except XbErr Value :=
  match typeGuard a b (some "multiply") with
  | .error e => .error e
  | .ok _ => mulM a b

/-- `Op.div`: type guard with verb "divide", then delegate. -/
def div (a b : Value) : Except XbErr Value :=
  match typeGuard a b (some "divide") with
  | .error e => .error e
  | .ok _ => divM a b

/-- `Op.int_div`: type guard with verb "integer divide", then delegate. -/
def intDiv (a b : Value) : Except XbErr Value :=
  match typeGuard a b (some "integer divide") with
  | .error e => .error e
  | .ok _ => intDivM a b

/-- `Op.mod`: type guard with verb "mod", then delegate. -/
def mod (a b : Value) : Except XbErr Value :=
  match typeGuard a b (some "mod") with
  | .error e => .error e
  | .ok _ => modM a b

/-- `Op.pow`: type guard with verb "exponentiate", then delegate. -/
def pow (a b : Value) : Except XbErr Value :=
  match typeGuard a b (some "exponentiate") with
  | .error e => .error e
  | .ok _ => powM a b

end Op

/-! ### Number parsing (`Number._parse_string`, `Number.from_node`) and the
raw literal evaluation of the syntax-tree layer -/

/-- Leading/trailing-whitespace strip over characters (Python's numeric
parsers strip whitespace before parsing). -/
def trimChars (cs : List Char) : List Char :=
  ((cs.dropWhile Char.isWhitespace).reverse.dropWhile Char.isWhitespace).reverse

/-- `str.lower()` over characters. -/
def lowerChars (cs : List Char) : List Char := cs.map Char.toLower

/-- Split a leading run of decimal digits from a character list. -/
def takeDigits : List Char → List Char × List Char
  | [] => ([], [])
  | c :: rest =>
    if c.isDigit then
      let (d, r) := takeDigits rest
      (c :: d, r)
    else ([], c :: rest)

/-- Value of a run of decimal digits. -/
def digitsToNat (ds : List Char) : Nat :=
  ds.foldl (fun acc c => acc * 10 + (c.toNat - 48)) 0

/-- Grammar core of Python `float(str)`: optional sign, digits around an
optional point, optional exponent.  Underscore separators and `inf`/`nan`
are not modelled. -/
def pyFloatCore (cs : List Char) : Option ℚ :=
  let (sgn, cs1) : ℚ × List Char :=
    match cs with
    | '+' :: r => (1, r)
    | '-' :: r => (-1, r)
    | r => (1, r)
  let (ip, cs2) := takeDigits cs1
  let (fp, cs3) :=
    match cs2 with
    | '.' :: r => takeDigits r
    | r => ([], r)
  if ip.isEmpty && fp.isEmpty then none
  else
    let mantissa : ℚ := (digitsToNat ip : ℚ) + (digitsToNat fp : ℚ) / (10 : ℚ) ^ fp.length
    match cs3 with
    | [] => some (sgn * mantissa)
    | e :: r =>
      if e = 'e' ∨ e = 'E' then
        let (esgn, r1) : Int × List Char :=
          match r with
          | '+' :: r2 => (1, r2)
          | '-' :: r2 => (-1, r2)
          | r2 => (1, r2)
        let (ed, r2) := takeDigits r1
        if ed.isEmpty || !r2.isEmpty then none
        else some (sgn * mantissa * (10 : ℚ) ^ (esgn * (digitsToNat ed : Int)))
      else none

/-- Python `float(str)`: whitespace-trimmed parse; a failed parse is a host
`ValueError`.  Infinities and NaN are outside the rational model. -/
def pyFloat (s : String) : Except XbErr ℚ :=
  let t := trimChars s.data
  let low := lowerChars t
  if low == "inf".data || low == "+inf".data || low == "-inf".data || low == "infinity".data ||
      low == "+infinity".data || low == "-infinity".data || low == "nan".data ||
      low == "+nan".data || low == "-nan".data then
    .error (.modelBoundary "non-finite float is outside the rational model")
  else
    match pyFloatCore t with
    | some q => .ok q
    | none => .error (.hostValueError ("could not convert string to float: '" ++ s ++ "'"))

/-- Python `int(str)` (base 10): optional sign and digits; a failed parse is
a host `ValueError`. -/
def pyIntDec (s : String) : Except XbErr Int :=
  let cs := trimChars s.data
  let (sgn, cs1) : Int × List Char :=
    match cs with
    | '+' :: r => (1, r)
    | '-' :: r => (-1, r)
    | r => (1, r)
  let (ds, rest) := takeDigits cs1
  if ds.isEmpty || !rest.isEmpty then
    .error (.hostValueError ("invalid literal for int() with base 10: '" ++ s ++ "'"))
  else .ok (sgn * (digitsToNat ds : Int))

/-- Hexadecimal digit test for an already-lowercased character. -/
def isHexDigit (c : Char) : Bool := c.isDigit || ('a' ≤ c && c ≤ 'f')

/-- Split a leading run of (lowercase) hexadecimal digits. -/
def takeHexDigits : List Char → List Char × List Char
  | [] => ([], [])
  | c :: rest =>
    if isHexDigit c then
      let (d, r) := takeHexDigits rest
      (c :: d, r)
    else ([], c :: rest)

/-- Value of a run of lowercase hexadecimal digits. -/
def hexDigitsToNat (ds : List Char) : Nat :=
  ds.foldl (fun acc c => acc * 16 + (if c.isDigit then c.toNat - 48 else c.toNat - 87)) 0

/-- Python `int(str, base=0)` on an already-lowercased `0x…` literal (the
only shape reaching it in `Number._parse_string`). -/
def pyIntHex (s : String) : Except XbErr Int :=
  match s.toList with
  | '0' :: 'x' :: rest =>
    let (ds, r) := takeHexDigits rest
    if ds.isEmpty || !r.isEmpty then
      .error (.hostValueError ("invalid literal for int() with base 0: '" ++ s ++ "'"))
    else .ok (hexDigitsToNat ds : Int)
  | _ => .error (.hostValueError ("invalid literal for int() with base 0: '" ++ s ++ "'"))

/-- `Number._parse_string`: lowercase; a `0x` prefix (with something after
it) parses as a hexadecimal integer; a string containing `.` or `e` parses
as a float, demoted to integer when whole; otherwise a decimal integer. -/
def numberParseString (s : String) : Except XbErr NumVal :=
  let raw : List Char := lowerChars s.data
  if raw.length > 2 ∧ raw.take 2 = "0x".data then
    match pyIntHex (String.mk raw) with
    | .error e => .error e
    | .ok i => .ok (.int i)
  else if raw.any (fun c => c == '.' || c == 'e') then
    match pyFloat (String.mk raw) with
    | .error e => .error e
    | .ok f => .ok (if f.den = 1 then .int f.num else .float f)
  else
    match pyIntDec (String.mk raw) with
    | .error e => .error e
    | .ok i => .ok (.int i)

/-- `Number.from_node`: `Number(Number._parse_string(node.token))`, so the
parse result passes through the `Number.__init__` normalization. -/
def numberFromNode (tok : String) : Except XbErr NumVal :=
  match numberParseString tok with
  | .error e => .error e
  | .ok nv => .ok (mkNumber nv)

/-! ### The raw value representation of the syntax-tree evaluator

`ast.py` does not import `value.py`: its `evaluate` methods produce and
consume bare Python objects (`None`, `bool`, `float`, `str`, `list`,
`dict`).  `Raw` is that representation; `Raw.none` is what the `Empty`
literal node evaluates to. -/

/-- A bare Python value as produced by the `ast.py` evaluator. -/
inductive Raw where
  | none
  | bool (b : Bool)
  | num (n : NumVal)
  | str (s : String)
  | list (l : List Raw)
  | dict (d : List (String × Raw))

namespace Raw

/-- `is None` (the test in `Coalesce.evaluate`, negated). -/
def isNone : Raw → Bool
  | none => true
  | _ => false

end Raw

/-- Python truthiness of a bare value, as used by the `and` / `or`
expressions in `And.evaluate` and `Or.evaluate`. -/
def truthyRaw : Raw → Bool
  | .none => false
  | .bool b => b
  | .num n => !(n.toQ == 0)
  | .str s => !(s == "")
  | .list l => !l.isEmpty
  | .dict d => !d.isEmpty

/-- `type(x).__name__` of a bare Python value. -/
def pythonTypeName : Raw → String
  | .none => "NoneType"
  | .bool _ => "bool"
  | .num (.int _) => "int"
  | .num (.float _) => "float"
  | .str _ => "str"
  | .list _ => "list"
  | .dict _ => "dict"

/-- Python `d[k] = v` on a bare dict: overwrites in place, or appends a new
key (no existence or constness check of any kind). -/
def rawDictSet : List (String × Raw) → String → Raw → List (String × Raw)
  | [], key, v => [(key, v)]
  | (k, w) :: rest, key, v =>
    if k = key then (k, v) :: rest else (k, w) :: rawDictSet rest key v

/-- The assigner closure built by `KeyAccess.evaluate_assignment_target`:
`target[key] = v`, with a `TypeError` (non-subscriptable target) caught and
re-raised as "cannot assign to keys on type '…'".  On a dict target the
write always succeeds — the `TODO` in the source notes the missing const /
known-key check. -/
def keyAccessAssign (target : Raw) (key : String) (v : Raw) : Except XbErr Raw :=
  match target with
  | .dict d => .ok (.dict (rawDictSet d key v))
  | t => .error (.runtime ("cannot assign to keys on type '" ++ pythonTypeName t ++ "'"))

/-- The `Number` literal node of `ast.py`: `float(self.token)` — a bare
Python float, not a `value.Number`. -/
def astNumberEvaluate (tok : String) : Except XbErr Raw :=
  match pyFloat tok with
  | .ok q => .ok (.num (.float q))
  | .error e => .error e

/-! ### Environments (`environment.py`)

An `Environment` is a frame (`name → (value, is_const)`) plus an optional
parent; the chain is modelled as a list of frames, innermost first.  The
operations are generic in the stored value type because the same class
serves both the raw syntax-tree pipeline and the `value.py` layer. -/

/-- One environment frame: `_dict` of `EnvironmentEntry(value, is_const)`. -/
abbrev Frame (α : Type) := List (String × α × Bool)

/-- A parent-linked environment, innermost frame first. -/
abbrev Env (α : Type) := List (Frame α)

/-- `Environment.__getitem__`: the current frame, else the parent chain,
else the unbound-name runtime error. -/
def envGetItem {α : Type} : Env α → String → Except XbErr α
  | [], n => .error (.runtime ("name '" ++ n ++ "' not recognized in this scope"))
  | f :: rest, n =>
    match entryLookup f n with
    | some (v, _) => .ok v
    | Option.none => envGetItem rest n

/-- `Environment.__setitem__`: a const binding in the owning frame rejects
the write; a var binding is updated in place; otherwise the walk continues
to the parent, and falling off the chain is the unbound-name error. -/
def envSetItem {α : Type} : Env α → String → α → Except XbErr (Env α)
  | [], n, _ => .error (.runtime ("name '" ++ n ++ "' not recognized in this scope"))
  | f :: rest, n, v =>
    match entryLookup f n with
    | some (_, true) => .error (.runtime ("name '" ++ n ++ "' is constant"))
    | some (_, false) => .ok (entryInsert f n (v, false) :: rest)
    | Option.none =>
      match envSetItem rest n v with
      | .error e => .error e
      | .ok r => .ok (f :: r)

/-- `Environment.declare_const`: rejects a name already bound in the
current frame, else adds a const entry. -/
def envDeclareConst {α : Type} : Env α → String → α → Except XbErr (Env α)
  | [], _, _ => .error (.modelBoundary "environment with no frame")
  | f :: rest, n, v =>
    if (entryLookup f n).isSome then .error (.runtime ("name '" ++ n ++ "' is already bound"))
    else .ok ((f ++ [(n, v, true)]) :: rest)

/-- `Environment.declare_var`: rejects a name already bound in the current
frame, else adds a var entry. -/
def envDeclareVar {α : Type} : Env α → String → α → Except XbErr (Env α)
  | [], _, _ => .error (.modelBoundary "environment with no frame")
  | f :: rest, n, v =>
    if (entryLookup f n).isSome then .error (.runtime ("name '" ++ n ++ "' is already bound"))
    else .ok ((f ++ [(n, v, false)]) :: rest)

/-- `Environment.is_const`: `self._dict[name].is_const` — only the current
frame is consulted, and a miss there is an uncaught host `KeyError`, even
when an ancestor frame binds the name. -/
def envIsConst {α : Type} : Env α → String → Except XbErr Bool
  | [], n => .error (.hostKeyError n)
  | f :: _, n =>
    match entryLookup f n with
    | some (_, c) => .ok c
    | Option.none => .error (.hostKeyError n)

/-! ### Array and Object access (`value.py`) -/

/-- `Array._validate_index`: a non-`Number` index cannot index an array; a
non-`int`-typed or negative payload "must be a positive integer"; an index
at or past the length is "out of range". -/
def validateIndex (l : List Value) (index : Value) : Except XbErr Nat :=
  match index with
  | .number (.int i) =>
    if i < 0 then .error (.runtime "array index must be a positive integer")
    else if (l.length : Int) ≤ i then .error (.runtime "array index out of range")
    else .ok i.toNat
  | .number (.float _) => .error (.runtime "array index must be a positive integer")
  | idx => .error (.runtime ("cannot index type 'array' with type '" ++ idx.typeName ++ "'"))

/-- `Array.index_get`: `self._list[self._validate_index(index)]`. -/
def arrayIndexGet (l : List Value) (index : Value) : Except XbErr Value :=
  match validateIndex l index with
  | .error e => .error e
  | .ok n =>
    match l.get? n with
    | some v => .ok v
    | Option.none => .error (.hostError "IndexError: unreachable after validation")

/-- `Array.index_set`: `self._list[self._validate_index(index)] = item`. -/
def arrayIndexSet (l : List Value) (index : Value) (item : Value) : Except XbErr (List Value) :=
  match validateIndex l index with
  | .error e => .error e
  | .ok n => .ok (l.set n item)

/-- `Object._validate_key`: a missing key is the unrecognized-key error. -/
def objectValidateKey (d : List (String × Value × Bool)) (key : String) : Except XbErr Unit :=
  if (entryLookup d key).isSome then .ok ()
  else .error (.runtime ("unrecognized key \"" ++ key ++ "\""))

/-- `Object.key_get`: validate, then return the entry's value. -/
def objectKeyGet (d : List (String × Value × Bool)) (key : String) : Except XbErr Value :=
  match objectValidateKey d key with
  | .error e => .error e
  | .ok _ =>
    match entryLookup d key with
    | some (v, _) => .ok v
    | Option.none => .error (.hostKeyError key)

/-- `Object.key_set`: validate, reject a const entry with the
field-is-constant error, else update the entry's value in place. -/
def objectKeySet (d : List (String × Value × Bool)) (key : String) (item : Value) :
    Except XbErr (List (String × Value × Bool)) :=
  match objectValidateKey d key with
  | .error e => .error e
  | .ok _ =>
    match entryLookup d key with
    | some (_, true) => .error (.runtime ("field \"" ++ key ++ "\" is constant"))
    | some (_, false) => .ok (entryInsert d key (item, false))
    | Option.none => .error (.hostKeyError key)

/-! ### The evaluating syntax-tree fragment (`ast.py`)

The fragment covers the nodes the claims are about.  Evaluation threads the
environment (Python mutates it in place) and the error component of the
result carries the state reached when the exception was raised. -/

/-- Syntax-tree nodes of `ast.py` needed by the claims.  Literal nodes carry
their token text, as in the source. -/
inductive Expr where
  | numberLit (tok : String)
  | stringLit (tok : String)
  | boolLit (tok : String)
  | emptyLit
  | ident (name : String)
  | and_ (lhs rhs : Expr)
  | or_ (lhs rhs : Expr)
  | coalesce (lhs rhs : Expr)
  | assign (target expr : Expr)
  | constDecl (name : String) (expr : Expr)
  | varDecl (name : String) (expr : Expr)

/-- The `Assigner` continuation: for an `Identifier` target it captures the
name and writes through the environment (`env[self.token] = o`). -/
inductive Assigner where
  | binding (name : String)

/-- `evaluate_assignment_target`: `Identifier` yields its binding assigner;
every other node in the fragment inherits the base implementation and
raises "invalid assignment target". -/
def evalTarget (e : Expr) (s : Env Raw) : Except XbErr Assigner × Env Raw :=
  match e with
  | .ident x => (.ok (.binding x), s)
  | _ => (.error (.runtime "invalid assignment target"), s)

/-- Invoking an `Assigner` with the assigned value. -/
def applyAssigner : Assigner → Raw → Env Raw → Except XbErr (Env Raw)
  | .binding x, v, s => envSetItem s x v

/-- The `evaluate` methods of the fragment.  Literals produce bare Python
values (`float(token)`, `token[1:-1]`, `token == "true"`, `None`); `and` /
`or` are Python's operators on those values (truthiness test, original
operand returned); `Coalesce.evaluate` returns the left value unless it
`is None`; `Assign.evaluate` obtains the assigner, evaluates the RHS, then
invokes the assigner and returns the RHS value; declarations evaluate the
RHS and then declare it in the current frame. -/
def evalRaw : Expr → Env Raw → Except XbErr Raw × Env Raw
  | .numberLit tok, s => (astNumberEvaluate tok, s)
  | .stringLit tok, s => (.ok (.str ((tok.drop 1).dropRight 1)), s)
  | .boolLit tok, s => (.ok (.bool (tok == "true")), s)
  | .emptyLit, s => (.ok .none, s)
  | .ident x, s => (envGetItem s x, s)
  | .and_ l r, s =>
    match evalRaw l s with
    | (.error m, s1) => (.error m, s1)
    | (.ok lv, s1) => if truthyRaw lv then evalRaw r s1 else (.ok lv, s1)
  | .or_ l r, s =>
    match evalRaw l s with
    | (.error m, s1) => (.error m, s1)
    | (.ok lv, s1) => if truthyRaw lv then (.ok lv, s1) else evalRaw r s1
  | .coalesce l r, s =>
    match evalRaw l s with
    | (.error m, s1) => (.error m, s1)
    | (.ok lv, s1) => if lv.isNone then evalRaw r s1 else (.ok lv, s1)
  | .assign tgt e, s =>
    match evalTarget tgt s with
    | (.error m, s1) => (.error m, s1)
    | (.ok asg, s1) =>
      match evalRaw e s1 with
      | (.error m, s2) => (.error m, s2)
      | (.ok v, s2) =>
        match applyAssigner asg v s2 with
        | .error m => (.error m, s2)
        | .ok s3 => (.ok v, s3)
  | .constDecl x e, s =>
    match evalRaw e s with
    | (.error m, s1) => (.error m, s1)
    | (.ok v, s1) =>
      match envDeclareConst s1 x v with
      | .error m => (.error m, s1)
      | .ok s2 => (.ok v, s2)
  | .varDecl x e, s =>
    match evalRaw e s with
    | (.error m, s1) => (.error m, s1)
    | (.ok v, s1) =>
      match envDeclareVar s1 x v with
      | .error m => (.error m, s1)
      | .ok s2 => (.ok v, s2)

/-! ### Object construction at the Value layer (`Object.from_node`)

`Object.from_node` in `value.py` calls `pair.key_value_const(env)`, a
method that no file under the interpreter sources defines (the `Pair`
classes of `ast.py` only offer `key_value`, without constness).  The
missing method is modelled from the spec below. -/

/-- Modelled from the spec: the expression of a `ConstPair` / `VarPair`
evaluated at the Value layer (no such evaluator exists in the sources; the
fragment of literal values and identifier lookups suffices for the claims). -/
inductive VExpr where
  | lit (v : Value)
  | identE (name : String)

/-- Modelled from the spec: Value-layer evaluation of the pair-expression
fragment. -/
def vEval : VExpr → Env Value → Except XbErr Value
  | .lit v, _ => .ok v
  | .identE x, env => envGetItem env x

/-- The three pair node kinds of an Object literal. -/
inductive PairNode where
  | inferPair (ident : String)
  | constPair (key : String) (expr : VExpr)
  | varPair (key : String) (expr : VExpr)

/-- Modelled from the spec: `Pair.key_value_const`, the method
`Object.from_node` calls but no source file defines.  Per §4.4 of the spec:
an `InferPair`'s key is the identifier text, its value is looked up in the
enclosing environment and its constness is inherited from the binding (via
`Environment.is_const`, which per §4.3 consults the current frame); a
`ConstPair` is const and a `VarPair` is var, each evaluating its
expression. -/
def keyValueConst : PairNode → Env Value → Except XbErr (String × Value × Bool)
  | .inferPair x, env =>
    match envGetItem env x with
    | .error e => .error e
    | .ok v =>
      match envIsConst env x with
      | .error e => .error e
      | .ok c => .ok (x, v, c)
  | .constPair k e, env =>
    match vEval e env with
    | .error er => .error er
    | .ok v => .ok (k, v, true)
  | .varPair k e, env =>
    match vEval e env with
    | .error er => .error er
    | .ok v => .ok (k, v, false)

/-- The dict comprehension of `Object.from_node`, pair by pair: each
`key_value_const` result is written into the dict being built, so a later
duplicate key overwrites the earlier entry. -/
def objectFromNodeAux : List PairNode → Env Value → Frame Value → Except XbErr (Frame Value)
  | [], _, acc => .ok acc
  | p :: rest, env, acc =>
    match keyValueConst p env with
    | .error e => .error e
    | .ok (k, v, c) => objectFromNodeAux rest env (entryInsert acc k (v, c))

/-- `Object.from_node`: build the entry dict from the pairs, left to right. -/
def objectFromNode (pairs : List PairNode) (env : Env Value) : Except XbErr (Frame Value) :=
  objectFromNodeAux pairs env []

/-- The key a pair contributes (identifier text or explicit key). -/
def pairKey : PairNode → String
  | .inferPair x => x
  | .constPair k _ => k
  | .varPair k _ => k

/-- The entry contributed by the LAST pair carrying a given key (later
pairs take precedence), used to state the last-wins property of
`Object.from_node`. -/
def lastContribution : List PairNode → Env Value → String → Option (Value × Bool)
  | [], _, _ => Option.none
  | p :: rest, env, k =>
    match lastContribution rest env k with
    | some e => some e
    | Option.none =>
      if pairKey p = k then
        match keyValueConst p env with
        | .ok (_, v, c) => some (v, c)
        | .error _ => Option.none
      else Option.none

/-! ### Helper lemmas -/

theorem entryLookup_insert_self {α : Type} (f : Frame α) (k : String) (e : α × Bool) :
    entryLookup (entryInsert f k e) k = some e := by
  induction f with
  | nil => simp [entryInsert, entryLookup]
  | cons hd tl ih =>
    obtain ⟨k', v', c'⟩ := hd
    by_cases h : k' = k <;> simp [entryInsert, entryLookup, h, ih]

theorem entryLookup_insert_other {α : Type} (f : Frame α) (k k' : String) (e : α × Bool)
    (h : k ≠ k') : entryLookup (entryInsert f k e) k' = entryLookup f k' := by
  induction f with
  | nil => simp [entryInsert, entryLookup, h]
  | cons hd tl ih =>
    obtain ⟨k0, v0, c0⟩ := hd
    by_cases h0 : k0 = k
    · subst h0
      simp [entryInsert, entryLookup, h]
    · simp [entryInsert, entryLookup, h0, ih]

theorem keyValueConst_key {p : PairNode} {env : Env Value} {k : String} {v : Value} {c : Bool}
    (h : keyValueConst p env = .ok (k, v, c)) : pairKey p = k := by
  cases p with
  | inferPair x =>
    cases hg : envGetItem env x with
    | error e => simp [keyValueConst, hg] at h
    | ok w =>
      cases hc : envIsConst env x with
      | error e => simp [keyValueConst, hg, hc] at h
      | ok cc =>
        simp [keyValueConst, hg, hc] at h
        simp [pairKey, h.1]
  | constPair k0 e0 =>
    cases hv : vEval e0 env with
    | error e => simp [keyValueConst, hv] at h
    | ok w =>
      simp [keyValueConst, hv] at h
      simp [pairKey, h.1]
  | varPair k0 e0 =>
    cases hv : vEval e0 env with
    | error e => simp [keyValueConst, hv] at h
    | ok w =>
      simp [keyValueConst, hv] at h
      simp [pairKey, h.1]

theorem objectFromNodeAux_lookup {pairs : List PairNode} {env : Env Value} {acc d : Frame Value}
    (h : objectFromNodeAux pairs env acc = .ok d) (k : String) :
    entryLookup d k =
      match lastContribution pairs env k with
      | some e => some e
      | Option.none => entryLookup acc k := by
  induction pairs generalizing acc with
  | nil =>
    unfold objectFromNodeAux at h
    simp at h
    subst h
    simp [lastContribution]
  | cons p rest ih =>
    unfold objectFromNodeAux at h
    cases hk : keyValueConst p env with
    | error e => rw [hk] at h; simp at h
    | ok t =>
      obtain ⟨kp, v, c⟩ := t
      rw [hk] at h
      have hkey : pairKey p = kp := keyValueConst_key hk
      have ihh := ih h
      cases hl : lastContribution rest env k with
      | some e =>
        rw [hl] at ihh
        simp [lastContribution, hl, ihh]
      | none =>
        rw [hl] at ihh
        by_cases hpk : pairKey p = k
        · have hkpk : kp = k := by rw [← hkey, hpk]
          subst hkpk
          simp [lastContribution, hl, hpk, hk, ihh, entryLookup_insert_self]
        · have hkpk : kp ≠ k := by rw [← hkey]; exact hpk
          simp [lastContribution, hl, hpk, ihh, entryLookup_insert_other acc kp k (v, c) hkpk]

/-- Substring test over character lists (used to compare a produced error
message against a claimed message fragment). -/
def containsSub : List Char → List Char → Bool
  | hay, needle =>
    if needle.isPrefixOf hay then true
    else
      match hay with
      | [] => false
      | _ :: rest => containsSub rest needle

/-! ### Claim theorems -/

/-- C3: for values of differing variants, `Op.eq` returns Boolean false and
`Op.neq` Boolean true without error, while the nine type-guarded operations
each raise the runtime error "cannot verb types 'A' and 'B'" with their
operation-specific verb. -/
theorem op_mixed_variants (a b : Value) (h : a.variant ≠ b.variant) :
    Op.eq a b = .ok (.boolean false) ∧
    Op.neq a b = .ok (.boolean true) ∧
    Op.lt a b = .error (.runtime ("cannot compare types '" ++ a.typeName ++ "' and '" ++ b.typeName ++ "'")) ∧
    Op.gt a b = .error (.runtime ("cannot compare types '" ++ a.typeName ++ "' and '" ++ b.typeName ++ "'")) ∧
    Op.add a b = .error (.runtime ("cannot add types '" ++ a.typeName ++ "' and '" ++ b.typeName ++ "'")) ∧
    Op.sub a b = .error (.runtime ("cannot subtract types '" ++ a.typeName ++ "' and '" ++ b.typeName ++ "'")) ∧
    Op.mul a b = .error (.runtime ("cannot multiply types '" ++ a.typeName ++ "' and '" ++ b.typeName ++ "'")) ∧
    Op.div a b = .error (.runtime ("cannot divide types '" ++ a.typeName ++ "' and '" ++ b.typeName ++ "'")) ∧
    Op.intDiv a b = .error (.runtime ("cannot integer divide types '" ++ a.typeName ++ "' and '" ++ b.typeName ++ "'")) ∧
    Op.mod a b = .error (.runtime ("cannot mod types '" ++ a.typeName ++ "' and '" ++ b.typeName ++ "'")) ∧
    Op.pow a b = .error (.runtime ("cannot exponentiate types '" ++ a.typeName ++ "' and '" ++ b.typeName ++ "'")) := by
  have hm : Op.typesMatch a b = false := by
    simp [Op.typesMatch, h]
  refine ⟨?_, ?_, ?_, ?_, ?_, ?_, ?_, ?_, ?_, ?_, ?_⟩ <;>
    simp [Op.eq, Op.neq, Op.lt, Op.gt, Op.add, Op.sub, Op.mul, Op.div, Op.intDiv,
      Op.mod, Op.pow, Op.typeGuard, Op.not_, boolCastB, hm]

/-- Witness for `op_mixed_variants` at Number vs String. -/
theorem op_mixed_variants_witness :
    (Value.number (.int 1)).variant ≠ (Value.str "x").variant ∧
    Op.eq (.number (.int 1)) (.str "x") = .ok (.boolean false) ∧
    Op.add (.number (.int 1)) (.str "x") =
      .error (.runtime "cannot add types 'number' and 'string'") := by
  refine ⟨by decide, ?_, ?_⟩
  · exact (op_mixed_variants (.number (.int 1)) (.str "x") (by decide)).1
  · exact (op_mixed_variants (.number (.int 1)) (.str "x") (by decide)).2.2.2.2.1

/-- C5: `Coalesce.evaluate` returns the left value unless the left value is
the Empty value (`None` at the bare-value layer), in which case — and only
then — the right operand is evaluated and returned; and at the Value layer
`Op.eq v Empty` is Boolean true exactly for the Empty value, so the direct
`is not None` test and the `Op.eq(v, Empty)` rule pick out the same sole
trigger. -/
theorem coalesce_empty_sole_trigger :
    (∀ (l r : Expr) (s : Env Raw) (lv : Raw) (s1 : Env Raw),
      evalRaw l s = (.ok lv, s1) →
      evalRaw (.coalesce l r) s = if lv.isNone then evalRaw r s1 else (.ok lv, s1))
    ∧ (∀ v : Value, Op.eq v .empty = .ok (.boolean true) ↔ v = .empty) := by
  constructor
  · intro l r s lv s1 h
    simp [evalRaw, h]
  · intro v
    constructor
    · intro h
      cases v <;> simp [Op.eq, Op.typesMatch, Value.variant, eqM] at h ⊢
    · intro h
      subst h
      simp [Op.eq, Op.typesMatch, eqM]

/-- Witness for `coalesce_empty_sole_trigger`: an Empty left operand makes
`() ?? true` evaluate and return the right operand. -/
theorem coalesce_empty_sole_trigger_witness :
    evalRaw (.coalesce .emptyLit (.boolLit "true")) [[]] = (.ok (.bool true), [[]]) := by
  have h := coalesce_empty_sole_trigger.1 .emptyLit (.boolLit "true") [[]] .none [[]] rfl
  simp only [Raw.isNone, if_true] at h
  rw [h]
  rfl

/-- C9: `Environment.is_const` reads only the current frame — a name bound
there yields its const flag, while a name missing from the current frame
(even one bound in an ancestor frame) raises a host `KeyError`, not the
runtime error the other environment operations raise. -/
theorem is_const_current_frame_only :
    (∀ (f : Frame Value) (rest : List (Frame Value)) (n : String) (v : Value) (c : Bool),
      entryLookup f n = some (v, c) → envIsConst (f :: rest) n = .ok c)
    ∧ (∀ (f : Frame Value) (rest : List (Frame Value)) (n : String),
      entryLookup f n = Option.none → envIsConst (f :: rest) n = .error (.hostKeyError n)) := by
  constructor
  · intro f rest n v c h
    simp [envIsConst, h]
  · intro f rest n h
    simp [envIsConst, h]

/-- Witness for `is_const_current_frame_only`: a name bound only in the
parent frame still raises `KeyError`, although lookup resolves it. -/
theorem is_const_current_frame_only_witness :
    envIsConst ([[], [("x", Value.number (.int 1), true)]] : Env Value) "x" =
      .error (.hostKeyError "x")
    ∧ envGetItem ([[], [("x", Value.number (.int 1), true)]] : Env Value) "x" =
      .ok (Value.number (.int 1)) := by
  exact ⟨is_const_current_frame_only.2 [] [[("x", Value.number (.int 1), true)]] "x" rfl, rfl⟩

/-- C10: the `Empty.eq` method returns Boolean true whatever its argument
is; the invariant that no non-Empty value equals Empty holds only because
`Op.eq` checks variants before delegating. -/
theorem empty_eq_method_vs_op :
    (∀ v : Value, eqM .empty v = .ok (.boolean true))
    ∧ (∀ v : Value, v.variant ≠ .vempty →
        Op.eq .empty v = .ok (.boolean false) ∧ Op.eq v .empty = .ok (.boolean false)) := by
  constructor
  · intro v
    cases v <;> rfl
  · intro v h
    have h1 : Op.typesMatch .empty v = false := by
      simp only [Op.typesMatch, decide_eq_false_iff_not]
      exact fun he => h he.symm
    have h2 : Op.typesMatch v .empty = false := by
      simp only [Op.typesMatch, decide_eq_false_iff_not]
      exact h
    exact ⟨by simp [Op.eq, h1], by simp [Op.eq, h2]⟩

/-- Witness for `empty_eq_method_vs_op` at `Boolean(False)`. -/
theorem empty_eq_method_vs_op_witness :
    eqM .empty (.boolean false) = .ok (.boolean true)
    ∧ Op.eq .empty (.boolean false) = .ok (.boolean false) := by
  exact ⟨empty_eq_method_vs_op.1 (.boolean false),
    (empty_eq_method_vs_op.2 (.boolean false) (by decide)).1⟩

/-- C6: in `Object.from_node` each pair contributes its entry — an
`InferPair`'s key is the identifier text with the value looked up in the
enclosing environment and the constness inherited from that binding, a
`ConstPair`'s entry is const, a `VarPair`'s entry is var — and the pairs are
processed left to right with a duplicate key's later pair overwriting the
earlier entry (the built dict holds exactly the last contribution per key). -/
theorem object_from_node_pairs :
    (∀ (pairs : List PairNode) (env : Env Value) (d : Frame Value) (k : String),
      objectFromNode pairs env = .ok d →
      entryLookup d k = lastContribution pairs env k)
    ∧ (∀ (x : String) (env : Env Value) (v : Value) (c : Bool),
      envGetItem env x = .ok v → envIsConst env x = .ok c →
      keyValueConst (.inferPair x) env = .ok (x, v, c))
    ∧ (∀ (k : String) (e : VExpr) (env : Env Value) (v : Value),
      vEval e env = .ok v → keyValueConst (.constPair k e) env = .ok (k, v, true))
    ∧ (∀ (k : String) (e : VExpr) (env : Env Value) (v : Value),
      vEval e env = .ok v → keyValueConst (.varPair k e) env = .ok (k, v, false)) := by
  refine ⟨?_, ?_, ?_, ?_⟩
  · intro pairs env d k h
    have h0 : objectFromNodeAux pairs env [] = .ok d := h
    have hl := objectFromNodeAux_lookup h0 k
    cases hc : lastContribution pairs env k <;> rw [hc] at hl <;> simpa [entryLookup] using hl
  · intro x env v c hg hc
    simp [keyValueConst, hg, hc]
  · intro k e env v hv
    simp [keyValueConst, hv]
  · intro k e env v hv
    simp [keyValueConst, hv]

/-- Witness for `object_from_node_pairs`: a var pair followed by a const
pair with the same key — the later, const pair wins. -/
theorem object_from_node_pairs_witness :
    objectFromNode [.varPair "x" (.lit (.number (.int 1))),
        .constPair "x" (.lit (.number (.int 2)))] [[]] =
      .ok [("x", Value.number (.int 2), true)]
    ∧ entryLookup [("x", Value.number (.int 2), true)] "x" =
        lastContribution [.varPair "x" (.lit (.number (.int 1))),
          .constPair "x" (.lit (.number (.int 2)))] [[]] "x"
    ∧ lastContribution [.varPair "x" (.lit (.number (.int 1))),
          .constPair "x" (.lit (.number (.int 2)))] [[]] "x" =
        some (Value.number (.int 2), true) := by
  refine ⟨rfl, ?_, rfl⟩
  exact object_from_node_pairs.1 _ [[]] _ "x" rfl

/-- C7 (amended): array index validation — an in-range integer `Number`
index reads / replaces exactly that element; a `Number` index that is
float-typed or negative raises "array index must be a positive integer"; an
integer index at or past the length raises "array index out of range"; and
a non-`Number` index raises "cannot index type 'array' with type '…'"
(not the positive-integer message the claim attributes to it). -/
theorem array_index_validation :
    (∀ (l : List Value) (k : Int) (v : Value) (hk : 0 ≤ k) (hl : k.toNat < l.length),
      arrayIndexGet l (.number (.int k)) = .ok (l.get ⟨k.toNat, hl⟩)
      ∧ arrayIndexSet l (.number (.int k)) v = .ok (l.set k.toNat v))
    ∧ (∀ (l : List Value) (q : ℚ) (v : Value),
      arrayIndexGet l (.number (.float q)) =
        .error (.runtime "array index must be a positive integer")
      ∧ arrayIndexSet l (.number (.float q)) v =
        .error (.runtime "array index must be a positive integer"))
    ∧ (∀ (l : List Value) (k : Int) (v : Value), k < 0 →
      arrayIndexGet l (.number (.int k)) =
        .error (.runtime "array index must be a positive integer")
      ∧ arrayIndexSet l (.number (.int k)) v =
        .error (.runtime "array index must be a positive integer"))
    ∧ (∀ (l : List Value) (k : Int) (v : Value), 0 ≤ k → (l.length : Int) ≤ k →
      arrayIndexGet l (.number (.int k)) = .error (.runtime "array index out of range")
      ∧ arrayIndexSet l (.number (.int k)) v = .error (.runtime "array index out of range"))
    ∧ (∀ (l : List Value) (i : Value) (v : Value), i.variant ≠ .vnumber →
      arrayIndexGet l i =
        .error (.runtime ("cannot index type 'array' with type '" ++ i.typeName ++ "'"))
      ∧ arrayIndexSet l i v =
        .error (.runtime ("cannot index type 'array' with type '" ++ i.typeName ++ "'"))) := by
  refine ⟨?_, ?_, ?_, ?_, ?_⟩
  · intro l k v hk hl
    have hneg : ¬(k < 0) := by omega
    have hlen : ¬((l.length : Int) ≤ k) := by omega
    constructor
    · simp [arrayIndexGet, validateIndex, hneg, hlen, List.getElem?_eq_getElem hl]
    · simp [arrayIndexSet, validateIndex, hneg, hlen]
  · intro l q v
    exact ⟨by simp [arrayIndexGet, validateIndex], by simp [arrayIndexSet, validateIndex]⟩
  · intro l k v hk
    have hlen : k < 0 := hk
    exact ⟨by simp [arrayIndexGet, validateIndex, hlen],
      by simp [arrayIndexSet, validateIndex, hlen]⟩
  · intro l k v hk hlen
    have hneg : ¬(k < 0) := by omega
    exact ⟨by simp [arrayIndexGet, validateIndex, hneg, hlen],
      by simp [arrayIndexSet, validateIndex, hneg, hlen]⟩
  · intro l i v h
    cases i <;> simp [arrayIndexGet, arrayIndexSet, validateIndex, Value.typeName] <;>
      exact absurd rfl h

/-- Witness for `array_index_validation`: a valid read and an
out-of-range read on a one-element array. -/
theorem array_index_validation_witness :
    arrayIndexGet [Value.number (.int 7)] (.number (.int 0)) = .ok (.number (.int 7))
    ∧ arrayIndexGet [Value.number (.int 7)] (.number (.int 1)) =
        .error (.runtime "array index out of range") := by
  constructor
  · have h := (array_index_validation.1 [Value.number (.int 7)] 0 .empty (by decide)
      (by decide)).1
    simpa using h
  · exact (array_index_validation.2.2.2.1 [Value.number (.int 7)] 1 .empty (by decide)
      (by decide)).1

/-- Counterexample to C7 as stated: a wrong-type (non-Number) index does
not produce a message containing "array index must be a positive integer";
it produces "cannot index type 'array' with type 'string'". -/
theorem array_wrongtype_message_counterexample :
    arrayIndexGet [Value.number (.int 1)] (.str "0") =
      .error (.runtime "cannot index type 'array' with type 'string'")
    ∧ containsSub "cannot index type 'array' with type 'string'".toList
        "array index must be a positive integer".toList = false := by
  exact ⟨rfl, by decide⟩

/-- C8: `Assign.evaluate` obtains the assigner from the target, then
evaluates the RHS, then invokes the assigner, and the expression's value is
the RHS value; when the RHS raises, the error propagates with the state the
RHS left behind — the assigner is never invoked, so the target is untouched
by the assignment. -/
theorem assign_order_no_partial_commit :
    (∀ (tgt e : Expr) (s : Env Raw) (asg : Assigner) (s1 : Env Raw) (v : Raw)
        (s2 s3 : Env Raw),
      evalTarget tgt s = (.ok asg, s1) →
      evalRaw e s1 = (.ok v, s2) →
      applyAssigner asg v s2 = .ok s3 →
      evalRaw (.assign tgt e) s = (.ok v, s3))
    ∧ (∀ (tgt e : Expr) (s : Env Raw) (asg : Assigner) (s1 : Env Raw) (m : XbErr)
        (s2 : Env Raw),
      evalTarget tgt s = (.ok asg, s1) →
      evalRaw e s1 = (.error m, s2) →
      evalRaw (.assign tgt e) s = (.error m, s2)) := by
  constructor
  · intro tgt e s asg s1 v s2 s3 h1 h2 h3
    simp [evalRaw, h1, h2, h3]
  · intro tgt e s asg s1 m s2 h1 h2
    simp [evalRaw, h1, h2]

/-- Witness for `assign_order_no_partial_commit`: an erroring RHS leaves the
environment exactly as the RHS evaluation left it — the binding keeps its
old value. -/
theorem assign_order_no_partial_commit_witness :
    evalRaw (.assign (.ident "x") (.ident "zzz")) [[("x", .num (.float 1), false)]] =
      (.error (.runtime "name 'zzz' not recognized in this scope"),
        [[("x", .num (.float 1), false)]]) := by
  exact assign_order_no_partial_commit.2 (.ident "x") (.ident "zzz")
    [[("x", .num (.float 1), false)]] (.binding "x") [[("x", .num (.float 1), false)]]
    (.runtime "name 'zzz' not recognized in this scope")
    [[("x", .num (.float 1), false)]] rfl rfl

unseal Rat.add Rat.mul Rat.sub Rat.inv in
/-- C1 (code bug): the direct paths do reject — assigning to a const
binding raises "name 'a' is constant" with the environment unchanged, and
re-declaring a bound name raises "name 'a' is already bound" — and
`Object.key_set` at the Value layer rejects a const field with
'field "x" is constant'; but the assigner actually built by
`KeyAccess.evaluate_assignment_target` writes `target[key] = v` on the bare
dict with no const (or even known-key) check, so the field-constancy path is
not enforced by the evaluator: the write succeeds and changes the stored
value. -/
theorem const_rejection_paths_and_keyaccess_gap :
    evalRaw (.assign (.ident "a") (.numberLit "2")) [[("a", .num (.float 1), true)]] =
      (.error (.runtime "name 'a' is constant"), [[("a", .num (.float 1), true)]])
    ∧ evalRaw (.varDecl "a" (.numberLit "2")) [[("a", .num (.float 1), true)]] =
      (.error (.runtime "name 'a' is already bound"), [[("a", .num (.float 1), true)]])
    ∧ objectKeySet [("x", Value.number (.int 1), true)] "x" (.number (.int 2)) =
      .error (.runtime "field \"x\" is constant")
    ∧ keyAccessAssign (.dict [("x", .num (.float 1))]) "x" (.num (.float 2)) =
      .ok (.dict [("x", .num (.float 2))]) := by
  exact ⟨rfl, rfl, rfl, rfl⟩

unseal Rat.add Rat.mul Rat.sub Rat.inv in
/-- C2 (code bug): `And.evaluate` / `Or.evaluate` are Python `and` / `or`
over bare values, so the short-circuit trigger is Python truthiness, not
`Boolean.cast`: the literal `0` is falsy to the evaluator — `0 && true`
returns `0` without evaluating the right operand and `0 || true` evaluates
and returns the right operand — although `Boolean.cast` of a zero Number is
Boolean true (only Empty and Boolean false cast to false). -/
theorem and_or_python_truthiness_bug :
    evalRaw (.and_ (.numberLit "0") (.boolLit "true")) [[]] = (.ok (.num (.float 0)), [[]])
    ∧ evalRaw (.or_ (.numberLit "0") (.boolLit "true")) [[]] = (.ok (.bool true), [[]])
    ∧ booleanCast (Value.number (.int 0)) = .boolean true
    ∧ booleanCast (Value.number (.float 0)) = .boolean true := by
  exact ⟨rfl, rfl, rfl, rfl⟩

unseal Rat.add Rat.mul Rat.sub Rat.inv in
/-- C4 (code bug): the `Number` literal node of `ast.py` evaluates with
`float(token)`, so a hexadecimal literal raises a host ValueError and a
whole decimal literal stays a bare float, while `Number.from_node` of
`value.py` (which nothing in the evaluator calls) implements the claimed
parsing — hex to integer, demotion of whole values — and Value-layer
arithmetic normalizes whole results to integers. -/
theorem number_literal_node_bug :
    astNumberEvaluate "0xFF" =
      .error (.hostValueError "could not convert string to float: '0xFF'")
    ∧ numberFromNode "0xFF" = .ok (.int 255)
    ∧ astNumberEvaluate "7" = .ok (.num (.float 7))
    ∧ numberFromNode "7" = .ok (.int 7)
    ∧ numberFromNode "1e3" = .ok (.int 1000)
    ∧ numberFromNode "5.5" = .ok (.float (11 / 2))
    ∧ Op.add (.number (.float (5 / 2))) (.number (.float (5 / 2))) =
        .ok (.number (.int 5)) := by
  exact ⟨rfl, rfl, rfl, rfl, rfl, rfl, rfl⟩
